import Mathlib

/-!
Verification development for the VEED.io-replica customer site
(`js/analytics.js` = `src/unnamed/part_001`, `js/main.js`).

The tracking facade (`VeedAnalytics`) and the application layer (`VeedApp`)
are shallowly embedded: `localStorage` is an association list, the tracking
transport (`analytics.page` / `identify` / `track` / `reset`) is recorded as
a trace of calls, and `Math.random`-based id generation is abstracted as a
supply `ℕ → String` consumed by an explicit counter.  Property VALUES in the
emitted maps are irrelevant to the properties checked here; property KEYS
are copied literally from the object literals in the source.
-/

namespace Veed

/-- A value held in `localStorage`.  Plain strings are stored as `.str`;
the JSON-serialised milestone array `onboarding_milestones` is modelled as
the decoded list itself (`.list`), abstracting the `JSON.stringify` /
`JSON.parse` round trip performed by the source. -/
inductive StoreVal
  | str (s : String)
  | list (l : List String)
  deriving DecidableEq, Repr

/-- `localStorage`, as an association list from keys to values. -/
def Store := List (String × StoreVal)

instance : DecidableEq Store := inferInstanceAs (DecidableEq (List (String × StoreVal)))

/-- `localStorage.getItem(k)`: `none` models JS `null`. -/
def getItem (store : Store) (k : String) : Option StoreVal :=
  (store.find? (fun p => p.1 == k)).map (·.2)

/-- `localStorage.setItem(k, v)`: replaces any previous binding of `k`. -/
def setItem (store : Store) (k : String) (v : StoreVal) : Store :=
  (k, v) :: store.filter (fun p => !(p.1 == k))

/-- `localStorage.removeItem(k)`. -/
def removeItem (store : Store) (k : String) : Store :=
  store.filter (fun p => !(p.1 == k))

/-- Read a string-valued key (all keys other than `onboarding_milestones`
hold strings). -/
def getStr (store : Store) (k : String) : Option String :=
  match getItem store k with
  | some (.str s) => some s
  | _ => none

/-- JS truthiness of `localStorage.getItem(k)` (a string): `null` and the
empty string are falsy. -/
def jsTruthyStr : Option String → Bool
  | none => false
  | some s => !s.isEmpty

/-- JS `a || b` on nullable strings, as used in
`localStorage.getItem('veed_user_id') || existingUserId`. -/
def jsOr (a b : Option String) : Option String :=
  if jsTruthyStr a then a else b

/-! ### Property-key lists of the emitted events

Each list is the key set of the object literal passed as the second argument
of the corresponding `analytics.page` / `analytics.track` call, in source
order. -/

/-- Keys of `pageProperties` in `VeedAnalytics.trackPageView`
(part_001 lines 119–137). -/
def pagePropertiesKeys : List String :=
  ["url", "path", "referrer", "title",
   "utm_source", "utm_medium", "utm_campaign", "utm_content", "utm_term",
   "userAgent", "screenWidth", "screenHeight",
   "userJourneyStage", "isAuthenticated"]

/-- Keys of the `'Signed Up'` event properties in `VeedAnalytics.trackSignup`
(part_001 lines 194–201). -/
def signedUpKeys : List String :=
  ["plan", "method", "source", "accountType", "companySize", "industry"]

/-- Keys of the `'Logged In'` event properties in `VeedAnalytics.trackLogin`
(part_001 lines 243–249). -/
def loggedInKeys : List String :=
  ["method", "plan", "loginCount", "daysSinceLastLogin", "loginStreak"]

/-- Keys of the `'Subscription Upgraded'` event properties in
`VeedAnalytics.trackSubscriptionUpgrade` (part_001 lines 318–330). -/
def subscriptionUpgradedKeys : List String :=
  ["previousPlan", "newPlan", "billingInterval", "mrr", "arr", "revenue",
   "currency", "method", "trial", "upgradeReason", "daysSinceSignup"]

/-- Keys of `milestoneProperties` in `VeedAnalytics.trackOnboardingMilestone`
(part_001 lines 355–367). -/
def milestonePropertiesKeys : List String :=
  ["user_id", "milestone", "session_id", "milestone_timestamp",
   "days_since_signup", "onboarding_version", "previous_milestones",
   "milestone_completion_time", "drop_off_risk", "engagement_score",
   "feature_discovery_rate"]

/-- Keys of the fixed part of the `'Feature Used'` event properties in
`VeedAnalytics.trackFeatureUsage` (part_001 lines 267–274); the caller's
`...properties` spread appends any keys not already present. -/
def featureUsedFixedKeys : List String :=
  ["featureName", "featureCategory", "plan", "featureAvailability",
   "usageContext", "isAnonymous"]

/-- Keys of the `'Editor Opened'` event properties in `VeedApp.openEditor`
(main.js lines 412–417). -/
def editorOpenedKeys : List String :=
  ["user_id", "session_id", "user_plan", "projects_created"]

/-- Keys of the `'Logged Out'` event properties in `VeedApp.logout`
(main.js lines 645–648). -/
def loggedOutKeys : List String :=
  ["sessionDuration", "plan"]

/-- The `userId` / `anonymousId` key spellings that the specification bans
from event and page property maps. -/
def identityKeyVariants : List String :=
  ["userId", "anonymousId", "user_id", "anonymous_id"]

/-! ### Scroll-depth milestone tracking

Embeds the debounced scroll handler installed by
`VeedAnalytics.setupEventListeners` (part_001 lines 433–480).  Each call of
`scrollStep` is one firing of the debounced callback with the computed
`scrollDepth = (scrollY + innerHeight) / scrollHeight` as a rational. -/

/-- The four scroll-depth milestones. -/
inductive Milestone
  | m25
  | m50
  | m75
  | m100
  deriving DecidableEq, Repr

/-- State captured by the scroll handler's closure: `maxScrollDepth` and the
`scrollMilestones` one-shot flags. -/
structure ScrollState where
  maxScrollDepth : ℚ
  m25 : Bool
  m50 : Bool
  m75 : Bool
  m100 : Bool
  deriving DecidableEq, Repr

/-- Initial closure state: `maxScrollDepth = 0`, all flags `false`. -/
def scrollInit : ScrollState :=
  { maxScrollDepth := 0, m25 := false, m50 := false, m75 := false, m100 := false }

/-- One firing of the debounced scroll callback on a computed `scrollDepth`.
Returns the updated closure state and the milestone of the `'Page Scrolled'`
event tracked by this firing, if any.  The source's `else if` chain fires at
most one milestone per firing, and the `'100%'` branch tests
`scrollDepth >= 0.95`. -/
def scrollStep (s : ScrollState) (scrollDepth : ℚ) : ScrollState × Option Milestone :=
  if scrollDepth > s.maxScrollDepth then
    let s := { s with maxScrollDepth := scrollDepth }
    if scrollDepth ≥ 25/100 ∧ s.m25 = false then
      ({ s with m25 := true }, some .m25)
    else if scrollDepth ≥ 50/100 ∧ s.m50 = false then
      ({ s with m50 := true }, some .m50)
    else if scrollDepth ≥ 75/100 ∧ s.m75 = false then
      ({ s with m75 := true }, some .m75)
    else if scrollDepth ≥ 95/100 ∧ s.m100 = false then
      ({ s with m100 := true }, some .m100)
    else (s, none)
  else (s, none)

/-- Run the scroll handler over a list of sampled scroll depths, collecting
the milestones of the emitted `'Page Scrolled'` events in order. -/
def runScroll (s : ScrollState) : List ℚ → ScrollState × List Milestone
  | [] => (s, [])
  | d :: ds =>
    let (s', ev) := scrollStep s d
    let (s'', evs) := runScroll s' ds
    (s'', (ev.toList) ++ evs)

/-- The one-shot flag of a milestone in the closure state. -/
def flagOf (m : Milestone) (s : ScrollState) : Bool :=
  match m with
  | .m25 => s.m25
  | .m50 => s.m50
  | .m75 => s.m75
  | .m100 => s.m100

/-! ### The transport trace and the facade state

Calls forwarded to the tracking transport (`analytics.page`, `.identify`,
`.track`, `.reset`) are recorded as a trace.  Only the event name, the
property KEYS and the identify argument are recorded: property values play
no role in the verified properties. -/

/-- One call forwarded to the tracking transport. -/
inductive TCall
  | page (name : String) (propKeys : List String)
  | identify (userId : Option String)
  | track (name : String) (propKeys : List String)
  | reset
  deriving DecidableEq, Repr

/-- The caller-supplied signup/login form data. -/
structure UserData where
  name : String
  email : String
  company : Option String
  deriving DecidableEq, Repr

/-- Mutable fields of `VeedAnalytics` relevant to identity, plus the
`localStorage` it reads and writes.  `fresh` is the read position in the
abstract random-id supply: `generateRandomUserId()` is modelled as reading
`supply fresh` and advancing `fresh`. -/
structure AnalyticsState where
  store : Store
  userId : Option String
  fresh : ℕ
  deriving DecidableEq

/-- `VeedAnalytics.getUserId` (part_001 lines 28–39): the stored id counts
only when stored user data is present as well. -/
def getUserId (store : Store) : Option String :=
  let userId := getStr store "veed_user_id"
  let userData := getStr store "veed_user_data"
  if jsTruthyStr userId && jsTruthyStr userData then userId else none

/-- Facade state right after construction on a given `localStorage`. -/
def initState (store : Store) : AnalyticsState :=
  { store := store, userId := getUserId store, fresh := 0 }

/-- Facade state in a fresh browsing context (empty `localStorage`). -/
def analyticsInit : AnalyticsState := initState []

/-- Stand-in for `JSON.stringify({...userData, userId, createdAt})` written
to `veed_user_data`: downstream reads depend only on the value being a
nonempty (truthy) string, which the braces guarantee. -/
def serializeUserData (ud : UserData) (userId : String) : String :=
  "\x7b" ++ ud.name ++ "," ++ ud.email ++ "," ++ userId ++ "\x7d"

/-- `VeedAnalytics.trackPageView` (part_001 lines 115–147): emits the page
call; no state change. -/
def trackPageView (s : AnalyticsState) : AnalyticsState × List TCall :=
  (s, [.page "VEED Homepage" pagePropertiesKeys])

/-- `VeedAnalytics.trackSignup` (part_001 lines 171–215): generates a fresh
user id, identifies with it, tracks `'Signed Up'`, and persists the id,
email and serialised user record. -/
def trackSignup (supply : ℕ → String) (userData : UserData) (s : AnalyticsState) :
    AnalyticsState × List TCall :=
  let generatedUserId := supply s.fresh
  let store := setItem s.store "veed_user_id" (.str generatedUserId)
  let store := setItem store "veed_user_email" (.str userData.email)
  let store := setItem store "veed_user_data"
    (.str (serializeUserData userData generatedUserId))
  ({ store := store, userId := some generatedUserId, fresh := s.fresh + 1 },
   [.identify (some generatedUserId), .track "Signed Up" signedUpKeys])

/-- `VeedAnalytics.trackLogin` (part_001 lines 218–263): prefers the stored
`veed_user_id`, then the caller's `existingUserId`, and only generates a
fresh id when both are absent (JS `||`, so an empty string also falls
through).  Identifies with the chosen id, tracks `'Logged In'`, and persists
the id, email, login timestamp and login count.  The wall-clock reading
`new Date().toISOString()` is abstracted as the parameter `ts`. -/
def trackLogin (supply : ℕ → String) (email : String) (existingUserId : Option String)
    (ts : String) (s : AnalyticsState) : AnalyticsState × List TCall :=
  let storedUserId := jsOr (getStr s.store "veed_user_id") existingUserId
  let (userId, fresh) :=
    match storedUserId with
    | some u => if u.isEmpty then (supply s.fresh, s.fresh + 1) else (u, s.fresh)
    | none => (supply s.fresh, s.fresh + 1)
  let loginCount := ((getStr s.store "login_count").bind String.toNat?).getD 0 + 1
  let store := setItem s.store "veed_user_id" (.str userId)
  let store := setItem store "veed_user_email" (.str email)
  let store := setItem store "last_login_date" (.str ts)
  let store := setItem store "login_count" (.str (toString loginCount))
  ({ store := store, userId := some userId, fresh := fresh },
   [.identify (some userId), .track "Logged In" loggedInKeys])

/-- `VeedAnalytics.trackSubscriptionUpgrade` (part_001 lines 303–334):
re-identifies with the facade's current `this.userId` (possibly `null`),
tracks `'Subscription Upgraded'`, and persists the new plan. -/
def trackSubscriptionUpgrade (plan : String) (s : AnalyticsState) :
    AnalyticsState × List TCall :=
  ({ s with store := setItem s.store "user_plan" (.str plan) },
   [.identify s.userId, .track "Subscription Upgraded" subscriptionUpgradedKeys])

/-- `VeedAnalytics.getCompletedMilestones` (part_001 line 610):
`JSON.parse(localStorage.getItem('onboarding_milestones') || '[]')`. -/
def getCompletedMilestones (store : Store) : List String :=
  match getItem store "onboarding_milestones" with
  | some (.list l) => l
  | _ => []

/-- `VeedAnalytics.updateOnboardingProgress` (part_001 lines 615–621):
appends the milestone to the stored list only when it is not already
present; the store is untouched otherwise. -/
def updateOnboardingProgress (store : Store) (milestone : String) : Store :=
  let milestones := getCompletedMilestones store
  if milestone ∈ milestones then store
  else setItem store "onboarding_milestones" (.list (milestones ++ [milestone]))

/-- `VeedAnalytics.trackOnboardingMilestone` (part_001 lines 354–373):
tracks `'Onboarding Milestone Completed'` (whose property map includes
`user_id`) and records the milestone. -/
def trackOnboardingMilestone (milestone : String) (s : AnalyticsState) :
    AnalyticsState × List TCall :=
  ({ s with store := updateOnboardingProgress s.store milestone },
   [.track "Onboarding Milestone Completed" milestonePropertiesKeys])

/-- Key list of a `'Feature Used'` event: the fixed keys of the object
literal, then any caller-spread keys not already present (JS spread keeps
the original position of overridden keys). -/
def featureUsedKeys (extraKeys : List String) : List String :=
  featureUsedFixedKeys ++ extraKeys.filter (fun k => k ∉ featureUsedFixedKeys)

/-- `VeedAnalytics.trackFeatureUsage` (part_001 lines 266–281): tracks
`'Feature Used'`; `updateFeatureAdoption` has an empty body in the source,
so no state changes. -/
def trackFeatureUsage (extraKeys : List String) (s : AnalyticsState) :
    AnalyticsState × List TCall :=
  (s, [.track "Feature Used" (featureUsedKeys extraKeys)])

/-- The trace emitted by `VeedApp.openEditor` (main.js lines 406–419) when
the editor modal exists: its property map includes `user_id` (the user's
email). -/
def openEditorCalls : List TCall :=
  [.track "Editor Opened" editorOpenedKeys]

/-- The `localStorage` effect of `VeedApp.logout` (main.js lines 652–659):
exactly these four keys are removed. -/
def logoutStore (store : Store) : Store :=
  let store := removeItem store "veed_user_data"
  let store := removeItem store "veed_user_id"
  let store := removeItem store "veed_user_email"
  removeItem store "user_plan"

/-- `VeedApp.logout` (main.js lines 643–667): tracks `'Logged Out'`, resets
the transport, and removes the four user keys.  (It does not touch the
facade's `this.userId` field.) -/
def logout (s : AnalyticsState) : AnalyticsState × List TCall :=
  ({ s with store := logoutStore s.store },
   [.track "Logged Out" loggedOutKeys, .reset])

/-! ### Operation sequences and transport-side attribution -/

/-- The facade/application operations modelled for call-sequence claims. -/
inductive Op
  | pageView
  | signup (userData : UserData)
  | login (email : String) (existingUserId : Option String) (ts : String)
  | upgrade (plan : String)
  | featureUsage (extraKeys : List String)
  | milestone (m : String)
  | logout

/-- Run one operation. -/
def runOp (supply : ℕ → String) (s : AnalyticsState) : Op → AnalyticsState × List TCall
  | .pageView => trackPageView s
  | .signup userData => trackSignup supply userData s
  | .login email existingUserId ts => trackLogin supply email existingUserId ts s
  | .upgrade plan => trackSubscriptionUpgrade plan s
  | .featureUsage extraKeys => trackFeatureUsage extraKeys s
  | .milestone m => trackOnboardingMilestone m s
  | .logout => logout s

/-- Run a sequence of operations, concatenating the emitted traces. -/
def runOps (supply : ℕ → String) (s : AnalyticsState) : List Op → AnalyticsState × List TCall
  | [] => (s, [])
  | op :: ops =>
    let (s', tr) := runOp supply s op
    let (s'', tr') := runOps supply s' ops
    (s'', tr ++ tr')

/-- Transport-side identity evolution: `identify` binds, `reset` clears,
`page`/`track` leave the bound identity unchanged. -/
def stepIdentity (cur : Option String) : TCall → Option String
  | .identify u => u
  | .reset => none
  | _ => cur

/-- The identity bound after processing a trace. -/
def curAfter (cur : Option String) : List TCall → Option String
  | [] => cur
  | c :: tr => curAfter (stepIdentity cur c) tr

/-- The attribution of each `track` call in a trace: the event name paired
with the identity bound at the moment the call is processed. -/
def attributions (cur : Option String) : List TCall → List (String × Option String)
  | [] => []
  | c :: tr =>
    (match c with
     | .track n _ => [(n, cur)]
     | _ => []) ++ attributions (stepIdentity cur c) tr

/-! ### Random user-id generation -/

/-- JS `String.prototype.charAt`: the one-character string at an in-range
index, the empty string otherwise. -/
def charAt (s : String) (i : ℤ) : String :=
  if 0 ≤ i ∧ i < (s.length : ℤ) then String.mk [s.data.getD i.toNat ' '] else ""

/-- The alphabet of `generateRandomUserId` (part_001 line 43,
main.js line 676). -/
def characters : String := "ABCDEFGHIJKLMNOPQRSTUVWXYZ0123456789"

/-- `generateRandomUserId` (part_001 lines 42–49, identically main.js lines
675–682): five characters chosen by `charAt(floor(random * 36))`, where each
`Math.random()` reading is abstracted as `rand i ∈ [0, 1)`. -/
def generateRandomUserId (rand : Fin 5 → ℚ) : String :=
  (List.finRange 5).foldl
    (fun result i => result ++ charAt characters (Int.floor (rand i * 36)))
    ""

/-! ### Behaviour when the tracking library failed to load

`Except`-valued evaluators for the code paths that dereference the global
`analytics` object, parameterised by whether the library loaded. -/

/-- A thrown JS error. -/
inductive JsError
  | referenceError (ident : String)
  deriving DecidableEq, Repr

/-- Dereferencing the global `analytics` object (e.g. `analytics.page(...)`)
throws a `ReferenceError` when the tracking library failed to load. -/
def analyticsGlobal (analyticsLoaded : Bool) : Except JsError Unit :=
  if analyticsLoaded then .ok () else .error (.referenceError "analytics")

/-- `VeedAnalytics.trackPageView` calls `analytics.page(...)`. -/
def trackPageViewRun (analyticsLoaded : Bool) : Except JsError Unit :=
  analyticsGlobal analyticsLoaded

/-- `VeedAnalytics.initializeTracking` (part_001 lines 73–93): page call
first; then, when both `veed_user_id` and `veed_user_data` are stored,
`identifyExistingUser` calls `analytics.identify(...)`; then
`setupEventListeners` only registers listeners. -/
def initTrackingRun (analyticsLoaded : Bool) (store : Store) :
    Except JsError Unit := do
  trackPageViewRun analyticsLoaded
  if jsTruthyStr (getStr store "veed_user_id")
      && jsTruthyStr (getStr store "veed_user_data") then
    analyticsGlobal analyticsLoaded
  else
    pure ()

/-- `new VeedAnalytics()` (part_001 lines 5–25): when `typeof analytics !==
'undefined'` the initialization is deferred to the `analytics.ready`
callback, which runs with the library loaded; otherwise the fallback branch
assigns a local anonymous id and calls `initializeTracking` immediately —
with `analytics` still undefined. -/
def constructorRun (analyticsLoaded : Bool) (store : Store) : Except JsError Unit :=
  if analyticsLoaded then
    initTrackingRun true store
  else
    initTrackingRun false store

/-- `VeedApp.showOnboardingTooltip` (main.js lines 245–268): the guard
checks `window.veedAnalytics`, but the guarded call dereferences the global
`analytics` directly. -/
def showOnboardingTooltipRun (analyticsLoaded veedAnalyticsPresent : Bool) :
    Except JsError Unit :=
  if veedAnalyticsPresent then analyticsGlobal analyticsLoaded else .ok ()

/-! ### Auxiliary definitions used in the statements -/

/-- The depth percentage announced by a milestone's event. -/
def milestonePercent : Milestone → ℕ
  | .m25 => 25
  | .m50 => 50
  | .m75 => 75
  | .m100 => 100

/-- The scroll-position sequence 10% → 30% → 20% → 60% → 90% from the
specification's scenario, as scroll-depth ratios. -/
def scrollSamples : List ℚ := [1/10, 3/10, 1/5, 3/5, 9/10]

/-- Whether an operation is a signup. -/
def Op.isSignup : Op → Bool
  | .signup _ => true
  | _ => false

/-- Whether an operation is the logout/reset operation. -/
def Op.isLogout : Op → Bool
  | .logout => true
  | _ => false

/-- The identity invariant after a signup bound `u`: the facade field
`this.userId` and the persisted `veed_user_id` both hold the nonempty id
`u`. -/
def Inv (s : AnalyticsState) (u : String) : Prop :=
  s.userId = some u ∧ getStr s.store "veed_user_id" = some u ∧ u.isEmpty = false

/-- A trace that keeps the bound identity `u`: it never resets and every
identify call it contains re-binds exactly `u`. -/
def KeepsId (u : String) (tr : List TCall) : Prop :=
  ∀ tc ∈ tr, tc ≠ TCall.reset ∧ ∀ v, tc = TCall.identify v → v = some u

/-- A populated `localStorage` of a signed-up, active user. -/
def demoStore : Store :=
  [("veed_user_id", .str "ABCDE"),
   ("veed_user_data", .str "\x7bdemo\x7d"),
   ("veed_user_email", .str "demo@example.com"),
   ("user_plan", .str "pro"),
   ("total_projects", .str "3"),
   ("exports_today", .str "1"),
   ("onboarding_milestones", .list ["account_created", "first_project_created"])]

/-- A constant random-id supply used for concrete evaluations. -/
def supplyABCDE : ℕ → String := fun _ => "ABCDE"

/-- Concrete signup form data used for concrete evaluations. -/
def demoUser : UserData :=
  { name := "Demo", email := "demo@example.com", company := none }

/-! ## Store lemmas -/

theorem find?_filter_key_none (store : Store) (k : String) :
    List.find? (fun p => p.1 == k) (List.filter (fun p => !(p.1 == k)) store) =
      none := by
  induction store with
  | nil => rfl
  | cons p rest ih =>
    by_cases hk : p.1 = k
    · simp [List.filter_cons, List.find?_cons, hk, ih]
    · simp [List.filter_cons, List.find?_cons, hk, ih]

theorem find?_filter_other_key (store : Store) (k k' : String) (h : k' ≠ k) :
    List.find? (fun p => p.1 == k') (List.filter (fun p => !(p.1 == k)) store) =
      List.find? (fun p => p.1 == k') store := by
  induction store with
  | nil => rfl
  | cons p rest ih =>
    by_cases hk : p.1 = k
    · have hk' : ¬ p.1 = k' := by rw [hk]; exact Ne.symm h
      have b1 : (p.1 == k) = true := by simp [hk]
      have b2 : (p.1 == k') = false := by simp [hk']
      simpa [List.filter_cons, List.find?_cons, b1, b2] using ih
    · have b1 : (p.1 == k) = false := by simp [hk]
      by_cases hk' : p.1 = k'
      · have b2 : (p.1 == k') = true := by simp [hk']
        simp [List.filter_cons, List.find?_cons, b1, b2]
      · have b2 : (p.1 == k') = false := by simp [hk']
        simpa [List.filter_cons, List.find?_cons, b1, b2] using ih

theorem getItem_setItem_self (store : Store) (k : String) (v : StoreVal) :
    getItem (setItem store k v) k = some v := by
  unfold getItem setItem
  simp [List.find?_cons]

theorem getItem_setItem_other (store : Store) (k k' : String) (v : StoreVal)
    (h : k' ≠ k) : getItem (setItem store k v) k' = getItem store k' := by
  unfold getItem setItem
  simp [List.find?_cons, Ne.symm h, find?_filter_other_key store k k' h]

theorem getItem_removeItem (store : Store) (k k' : String) :
    getItem (removeItem store k) k' =
      if k' = k then none else getItem store k' := by
  unfold getItem removeItem
  by_cases h : k' = k
  · subst h
    rw [if_pos rfl, find?_filter_key_none store k']
    rfl
  · rw [if_neg h, find?_filter_other_key store k k' h]

theorem getStr_setItem_self (store : Store) (k s : String) :
    getStr (setItem store k (.str s)) k = some s := by
  simp [getStr, getItem_setItem_self]

theorem getStr_setItem_other (store : Store) (k k' : String) (v : StoreVal)
    (h : k' ≠ k) : getStr (setItem store k v) k' = getStr store k' := by
  simp [getStr, getItem_setItem_other store k k' v h]

theorem getCompletedMilestones_setItem (store : Store) (l : List String) :
    getCompletedMilestones (setItem store "onboarding_milestones" (.list l)) = l := by
  simp [getCompletedMilestones, getItem_setItem_self]

/-! ## C10: idempotence of the onboarding-milestone update -/

theorem updateOnboardingProgress_nodup (store : Store) (m : String)
    (h : (getCompletedMilestones store).Nodup) :
    (getCompletedMilestones (updateOnboardingProgress store m)).Nodup := by
  unfold updateOnboardingProgress
  by_cases hm : m ∈ getCompletedMilestones store
  · simpa [hm] using h
  · simp [hm, getCompletedMilestones_setItem, List.nodup_append, h]

theorem foldl_updateOnboardingProgress_nodup (ms : List String) (store : Store)
    (h : (getCompletedMilestones store).Nodup) :
    (getCompletedMilestones (ms.foldl updateOnboardingProgress store)).Nodup := by
  induction ms generalizing store with
  | nil => simpa using h
  | cons m ms ih =>
    exact ih _ (updateOnboardingProgress_nodup store m h)

/-- C10: `updateOnboardingProgress` is idempotent on the persisted store —
updating twice with the same milestone leaves the same store as updating
once — and the completed-onboarding-milestone list produced by any sequence
of updates from an empty store never contains duplicate entries. -/
theorem updateOnboardingProgress_idempotent_nodup :
    (∀ (store : Store) (m : String),
        updateOnboardingProgress (updateOnboardingProgress store m) m =
          updateOnboardingProgress store m) ∧
    (∀ ms : List String,
        (getCompletedMilestones (ms.foldl updateOnboardingProgress ([] : Store))).Nodup) := by
  constructor
  · intro store m
    by_cases hm : m ∈ getCompletedMilestones store
    · simp [updateOnboardingProgress, hm]
    · simp [updateOnboardingProgress, hm, getCompletedMilestones_setItem]
  · intro ms
    exact foldl_updateOnboardingProgress_nodup ms [] (by simp [getCompletedMilestones, getItem])

/-! ## C8: the localStorage effect of logout -/

/-- C8 counterexample: in a populated store, after `VeedApp.logout` the
usage counters — completed-milestone set, project count, daily export
count — are still present, so the persisted state is not cleared together. -/
theorem logout_leaves_usage_counters :
    getItem (logoutStore demoStore) "onboarding_milestones" =
      some (.list ["account_created", "first_project_created"]) ∧
    getItem (logoutStore demoStore) "total_projects" = some (.str "3") ∧
    getItem (logoutStore demoStore) "exports_today" = some (.str "1") := by
  decide

/-- C8 (amended): `VeedApp.logout` removes exactly the identified user id
(`veed_user_id`), the cached user record (`veed_user_data`), the stored
email (`veed_user_email`) and the plan tier (`user_plan`); the usage
counters `total_projects`, `exports_today` and `onboarding_milestones`
are left untouched. -/
theorem logout_clears_user_keys_only (store : Store) :
    getItem (logoutStore store) "veed_user_data" = none ∧
    getItem (logoutStore store) "veed_user_id" = none ∧
    getItem (logoutStore store) "veed_user_email" = none ∧
    getItem (logoutStore store) "user_plan" = none ∧
    getItem (logoutStore store) "total_projects" = getItem store "total_projects" ∧
    getItem (logoutStore store) "exports_today" = getItem store "exports_today" ∧
    getItem (logoutStore store) "onboarding_milestones" =
      getItem store "onboarding_milestones" := by
  unfold logoutStore
  refine ⟨?_, ?_, ?_, ?_, ?_, ?_, ?_⟩ <;>
    simp [getItem_removeItem]

/-! ## C1: identity keys inside property maps -/

/-- C1 counterexample: the `'Onboarding Milestone Completed'` event emitted
by `trackOnboardingMilestone` carries a `user_id` key inside its property
map, so identity is not carried only out-of-band. -/
theorem milestone_event_carries_user_id :
    (trackOnboardingMilestone "first_project_created" analyticsInit).2 =
      [TCall.track "Onboarding Milestone Completed" milestonePropertiesKeys] ∧
    "user_id" ∈ milestonePropertiesKeys ∧
    "user_id" ∈ identityKeyVariants := by
  decide

/-- C1 (amended): the page call of `trackPageView` and the `'Signed Up'`,
`'Logged In'`, `'Subscription Upgraded'`, `'Feature Used'` (fixed part) and
`'Logged Out'` events carry no `userId`/`anonymousId` variant in their
property maps, but the `'Onboarding Milestone Completed'` map of
`trackOnboardingMilestone` and the `'Editor Opened'` map of
`VeedApp.openEditor` each contain a `user_id` key. -/
theorem identity_keys_partly_out_of_band :
    (∀ k ∈ pagePropertiesKeys, k ∉ identityKeyVariants) ∧
    (∀ k ∈ signedUpKeys, k ∉ identityKeyVariants) ∧
    (∀ k ∈ loggedInKeys, k ∉ identityKeyVariants) ∧
    (∀ k ∈ subscriptionUpgradedKeys, k ∉ identityKeyVariants) ∧
    (∀ k ∈ featureUsedFixedKeys, k ∉ identityKeyVariants) ∧
    (∀ k ∈ loggedOutKeys, k ∉ identityKeyVariants) ∧
    "user_id" ∈ milestonePropertiesKeys ∧
    "user_id" ∈ editorOpenedKeys := by
  decide

/-! ## C4: the 10→30→20→60→90 scroll scenario -/

/-- C4 counterexample: driving the scroll handler with depths
10%, 30%, 20%, 60%, 90% fires exactly THREE milestone events
(25%, 50%, 75%), not four: the `'100%'` branch requires depth ≥ 95% and the
`else if` chain fires at most one milestone per sample. -/
theorem scroll_sequence_fires_three_milestones :
    (runScroll scrollInit scrollSamples).2 = [.m25, .m50, .m75] ∧
    (runScroll scrollInit scrollSamples).2.length ≠ 4 := by
  have h : (runScroll scrollInit scrollSamples).2 = [.m25, .m50, .m75] := by
    norm_num [scrollSamples, runScroll, scrollStep, scrollInit]
  rw [h]
  exact ⟨rfl, by decide⟩

/-- C4 (amended): on the scroll-position sequence 10%→30%→20%→60%→90%
exactly three distinct milestone events fire — 25%, 50% and 75% — in
ascending order of depth with no duplicates, and the 100% milestone does
not fire. -/
theorem scroll_sequence_three_ascending_nodup :
    (runScroll scrollInit scrollSamples).2 = [.m25, .m50, .m75] ∧
    (runScroll scrollInit scrollSamples).2.Nodup ∧
    ((runScroll scrollInit scrollSamples).2.map milestonePercent).Chain' (· < ·) ∧
    Milestone.m100 ∉ (runScroll scrollInit scrollSamples).2 := by
  have h : (runScroll scrollInit scrollSamples).2 = [.m25, .m50, .m75] := by
    norm_num [scrollSamples, runScroll, scrollStep, scrollInit]
  rw [h]
  exact ⟨rfl, by decide, by simp [milestonePercent], by decide⟩

/-! ## C6: behaviour when the tracking library failed to load -/

/-- C6: when the tracking transport failed to load, constructing the facade
does NOT degrade to a no-op: the constructor's fallback branch reaches
`analytics.page(...)` inside `trackPageView` and throws a `ReferenceError`;
likewise `VeedApp.showOnboardingTooltip` guards on `window.veedAnalytics`
but dereferences the undefined global `analytics` and throws. -/
theorem constructor_throws_when_transport_missing :
    constructorRun false [] = .error (.referenceError "analytics") ∧
    constructorRun false demoStore = .error (.referenceError "analytics") ∧
    showOnboardingTooltipRun false true = .error (.referenceError "analytics") := by
  refine ⟨rfl, rfl, rfl⟩

/-! ## C5: one-shot scroll milestones -/

theorem runScroll_cons (s : ScrollState) (d : ℚ) (ds : List ℚ) :
    runScroll s (d :: ds) =
      ((runScroll (scrollStep s d).1 ds).1,
        (scrollStep s d).2.toList ++ (runScroll (scrollStep s d).1 ds).2) := rfl

theorem flagOf_scrollStep_monotone (m : Milestone) (s : ScrollState) (d : ℚ)
    (h : flagOf m s = true) : flagOf m (scrollStep s d).1 = true := by
  cases m <;> simp only [flagOf] at h ⊢ <;>
    simp only [scrollStep] <;> split_ifs <;> simp_all

theorem scrollStep_emit (s : ScrollState) (d : ℚ) (m : Milestone)
    (h : (scrollStep s d).2 = some m) :
    flagOf m s = false ∧ flagOf m (scrollStep s d).1 = true := by
  simp only [scrollStep] at h ⊢
  split_ifs at h ⊢ <;> simp_all [flagOf] <;> cases m <;> simp_all [flagOf]

theorem runScroll_not_mem_of_flag (s : ScrollState) (ds : List ℚ) (m : Milestone)
    (h : flagOf m s = true) : m ∉ (runScroll s ds).2 := by
  induction ds generalizing s with
  | nil => simp [runScroll]
  | cons d ds ih =>
    rw [runScroll_cons, List.mem_append]
    intro hmem
    rcases hmem with hm | hm
    · rcases hev : (scrollStep s d).2 with _ | m'
      · rw [hev] at hm
        simp at hm
      · rw [hev] at hm
        simp at hm
        subst hm
        have hflag := (scrollStep_emit s d m hev).1
        rw [h] at hflag
        cases hflag
    · exact ih (scrollStep s d).1 (flagOf_scrollStep_monotone m s d h) hm

theorem runScroll_count_le_one (s : ScrollState) (ds : List ℚ) (m : Milestone) :
    ((runScroll s ds).2.count m) ≤ 1 := by
  induction ds generalizing s with
  | nil => simp [runScroll]
  | cons d ds ih =>
    rw [runScroll_cons]
    simp only [List.count_append]
    rcases hev : (scrollStep s d).2 with _ | m'
    · simpa using ih (scrollStep s d).1
    · by_cases hm : m = m'
      · subst hm
        have hflag := (scrollStep_emit s d m hev).2
        have hnot := runScroll_not_mem_of_flag (scrollStep s d).1 ds m hflag
        simp [List.count_eq_zero.mpr hnot]
      · have hcount : (Option.some m').toList.count m = 0 := by
          simp [List.count_singleton', hm]
        rw [hcount]
        simpa using ih (scrollStep s d).1

/-- C5: over every sequence of scroll-depth samples in one session, each
scroll-depth milestone event (25%, 50%, 75%, 100%) is emitted at most once:
its one-shot flag prevents any re-firing for the remainder of the
session. -/
theorem scroll_milestones_fire_at_most_once (ds : List ℚ) (m : Milestone) :
    ((runScroll scrollInit ds).2.count m) ≤ 1 :=
  runScroll_count_le_one scrollInit ds m

/-! ## C7: identify-time operations and missing identity -/

/-- C7 counterexample: `trackLogin` invoked with a blank email, no caller-
supplied id and an empty store does not reject the call: it fabricates a
fresh random user id and forwards an identify call carrying it to the
transport. -/
theorem login_blank_identity_forwards_identify :
    (trackLogin supplyABCDE "" none "2024-01-01T00:00:00Z" analyticsInit).2 =
      [TCall.identify (some "ABCDE"), TCall.track "Logged In" loggedInKeys] := by
  rfl

/-- C7 (amended): no identify-time operation of the facade validates the
supplied identity or rejects a call: on every input — blank email and absent
identity included — `trackLogin` forwards an identify call with a stored or
freshly generated id, `trackSignup` forwards an identify call with a freshly
generated id, and `trackSubscriptionUpgrade` forwards an identify call with
the facade's current (possibly null) `userId`. -/
theorem identify_time_ops_never_reject (supply : ℕ → String) (email ts : String)
    (existingUserId : Option String) (userData : UserData) (plan : String)
    (s : AnalyticsState) :
    (∃ uid, (trackLogin supply email existingUserId ts s).2 =
        [TCall.identify (some uid), TCall.track "Logged In" loggedInKeys]) ∧
    (trackSignup supply userData s).2 =
      [TCall.identify (some (supply s.fresh)), TCall.track "Signed Up" signedUpKeys] ∧
    (trackSubscriptionUpgrade plan s).2 =
      [TCall.identify s.userId,
        TCall.track "Subscription Upgraded" subscriptionUpgradedKeys] := by
  refine ⟨?_, rfl, rfl⟩
  rcases h : jsOr (getStr s.store "veed_user_id") existingUserId with _ | u
  · exact ⟨supply s.fresh, by simp [trackLogin, h]⟩
  · by_cases hu : u.isEmpty
    · exact ⟨supply s.fresh, by simp [trackLogin, h, hu]⟩
    · exact ⟨u, by simp [trackLogin, h, hu]⟩

/-! ## C9: the random user-id generator -/

theorem charAt_characters (k : ℤ) (h0 : 0 ≤ k) (h36 : k < 36) :
    (charAt characters k).length = 1 ∧
      ∀ c ∈ (charAt characters k).data, c ∈ characters.data := by
  interval_cases k <;> exact ⟨by decide, by decide⟩

/-- C9: whatever the outcomes of the five `Math.random()` readings,
`generateRandomUserId` returns a string of exactly five characters, each
drawn from the 36-character alphabet A–Z, 0–9. -/
theorem generateRandomUserId_valid (rand : Fin 5 → ℚ)
    (h : ∀ i, 0 ≤ rand i ∧ rand i < 1) :
    (generateRandomUserId rand).length = 5 ∧
      ∀ c ∈ (generateRandomUserId rand).data, c ∈ characters.data := by
  have hb : ∀ i : Fin 5,
      0 ≤ Int.floor (rand i * 36) ∧ Int.floor (rand i * 36) < 36 := by
    intro i
    refine ⟨Int.floor_nonneg.mpr (mul_nonneg (h i).1 (by norm_num)), ?_⟩
    have h36 : rand i * 36 < 36 := by nlinarith [(h i).2]
    exact Int.floor_lt.mpr (by exact_mod_cast h36)
  have key := fun i : Fin 5 => charAt_characters _ (hb i).1 (hb i).2
  have hg : generateRandomUserId rand =
      (((("" ++ charAt characters (Int.floor (rand 0 * 36)))
          ++ charAt characters (Int.floor (rand 1 * 36)))
          ++ charAt characters (Int.floor (rand 2 * 36)))
          ++ charAt characters (Int.floor (rand 3 * 36)))
          ++ charAt characters (Int.floor (rand 4 * 36)) := rfl
  rw [hg]
  constructor
  · simp only [String.length_append]
    rw [(key 0).1, (key 1).1, (key 2).1, (key 3).1, (key 4).1]
    rfl
  · intro c hc
    simp only [String.data_append] at hc
    simp only [List.mem_append] at hc
    rcases hc with (((((hc | hc) | hc) | hc) | hc) | hc)
    · cases hc
    · exact (key 0).2 c hc
    · exact (key 1).2 c hc
    · exact (key 2).2 c hc
    · exact (key 3).2 c hc
    · exact (key 4).2 c hc

/-- C9 witness: a concrete run with all five readings equal to 1/2 yields a
five-character string over the alphabet. -/
theorem generateRandomUserId_valid_witness :
    (generateRandomUserId (fun _ => 1/2)).length = 5 :=
  (generateRandomUserId_valid (fun _ => 1/2)
    (fun _ => ⟨by norm_num, by norm_num⟩)).1

/-! ## C2 and C3: identity stability across operation sequences -/

theorem keepsId_nil (u : String) : KeepsId u [] := by
  intro tc htc
  cases htc

theorem keepsId_cons (u : String) (tc : TCall) (tr : List TCall)
    (h1 : tc ≠ TCall.reset) (h2 : ∀ v, tc = TCall.identify v → v = some u)
    (h : KeepsId u tr) : KeepsId u (tc :: tr) := by
  intro c hc
  rcases List.mem_cons.mp hc with rfl | hc
  · exact ⟨h1, h2⟩
  · exact h c hc

theorem keepsId_page (u n : String) (ks : List String) (tr : List TCall)
    (h : KeepsId u tr) : KeepsId u (.page n ks :: tr) :=
  keepsId_cons u _ tr (fun hh => TCall.noConfusion hh)
    (fun _ hv => TCall.noConfusion hv) h

theorem keepsId_track (u n : String) (ks : List String) (tr : List TCall)
    (h : KeepsId u tr) : KeepsId u (.track n ks :: tr) :=
  keepsId_cons u _ tr (fun hh => TCall.noConfusion hh)
    (fun _ hv => TCall.noConfusion hv) h

theorem keepsId_identify (u : String) (tr : List TCall)
    (h : KeepsId u tr) : KeepsId u (.identify (some u) :: tr) :=
  keepsId_cons u _ tr (fun hh => TCall.noConfusion hh)
    (fun _ hv => (TCall.identify.inj hv).symm) h

theorem keepsId_append (u : String) (tr1 tr2 : List TCall)
    (h1 : KeepsId u tr1) (h2 : KeepsId u tr2) : KeepsId u (tr1 ++ tr2) := by
  intro tc htc
  rcases List.mem_append.mp htc with h | h
  exacts [h1 tc h, h2 tc h]

theorem getStr_updateOnboardingProgress (store : Store) (m k : String)
    (h : k ≠ "onboarding_milestones") :
    getStr (updateOnboardingProgress store m) k = getStr store k := by
  simp only [updateOnboardingProgress]
  split_ifs with hm
  · rfl
  · exact getStr_setItem_other _ _ _ _ h

theorem trackLogin_with_stored_id (supply : ℕ → String) (email ts : String)
    (existingUserId : Option String) (s : AnalyticsState) (u : String)
    (hid : getStr s.store "veed_user_id" = some u) (hu : u.isEmpty = false) :
    (trackLogin supply email existingUserId ts s).1.userId = some u ∧
    (trackLogin supply email existingUserId ts s).1.fresh = s.fresh ∧
    getStr (trackLogin supply email existingUserId ts s).1.store "veed_user_id" =
      some u ∧
    (trackLogin supply email existingUserId ts s).2 =
      [TCall.identify (some u), TCall.track "Logged In" loggedInKeys] := by
  have hjs : jsOr (getStr s.store "veed_user_id") existingUserId = some u := by
    simp [jsOr, hid, jsTruthyStr, hu]
  simp only [trackLogin, hjs, hu, Bool.false_eq_true, if_false]
  refine ⟨trivial, trivial, ?_, trivial⟩
  rw [getStr_setItem_other _ "login_count" "veed_user_id" _ (by decide),
    getStr_setItem_other _ "last_login_date" "veed_user_id" _ (by decide),
    getStr_setItem_other _ "veed_user_email" "veed_user_id" _ (by decide),
    getStr_setItem_self]

theorem trackSignup_establishes (supply : ℕ → String) (userData : UserData)
    (s : AnalyticsState) (hne : (supply s.fresh).isEmpty = false) :
    Inv (trackSignup supply userData s).1 (supply s.fresh) ∧
    (trackSignup supply userData s).1.fresh = s.fresh + 1 ∧
    (trackSignup supply userData s).2 =
      [TCall.identify (some (supply s.fresh)),
        TCall.track "Signed Up" signedUpKeys] := by
  refine ⟨⟨rfl, ?_, hne⟩, rfl, rfl⟩
  show getStr (setItem (setItem (setItem s.store "veed_user_id"
      (.str (supply s.fresh))) "veed_user_email" (.str userData.email))
      "veed_user_data" (.str (serializeUserData userData (supply s.fresh))))
      "veed_user_id" = some (supply s.fresh)
  rw [getStr_setItem_other _ "veed_user_data" "veed_user_id" _ (by decide),
    getStr_setItem_other _ "veed_user_email" "veed_user_id" _ (by decide),
    getStr_setItem_self]

theorem runOp_keeps_identity (supply : ℕ → String) (u : String) (op : Op)
    (hsig : op.isSignup = false) (hlog : op.isLogout = false)
    (s : AnalyticsState) (hInv : Inv s u) :
    Inv (runOp supply s op).1 u ∧
    (runOp supply s op).1.fresh = s.fresh ∧
    KeepsId u (runOp supply s op).2 := by
  obtain ⟨huid, hstore, hne⟩ := hInv
  cases op with
  | pageView =>
    exact ⟨⟨huid, hstore, hne⟩, rfl,
      keepsId_page u "VEED Homepage" pagePropertiesKeys [] (keepsId_nil u)⟩
  | signup userData => simp [Op.isSignup] at hsig
  | logout => simp [Op.isLogout] at hlog
  | login email existingUserId ts =>
    have hl := trackLogin_with_stored_id supply email ts existingUserId s u hstore hne
    refine ⟨⟨hl.1, hl.2.2.1, hne⟩, hl.2.1, ?_⟩
    show KeepsId u (trackLogin supply email existingUserId ts s).2
    rw [hl.2.2.2]
    exact keepsId_identify u _ (keepsId_track u "Logged In" loggedInKeys [] (keepsId_nil u))
  | upgrade plan =>
    refine ⟨⟨huid, ?_, hne⟩, rfl, ?_⟩
    · exact (getStr_setItem_other s.store "user_plan" "veed_user_id" _ (by decide)).trans hstore
    · show KeepsId u [TCall.identify s.userId,
        TCall.track "Subscription Upgraded" subscriptionUpgradedKeys]
      rw [huid]
      exact keepsId_identify u _
        (keepsId_track u "Subscription Upgraded" subscriptionUpgradedKeys [] (keepsId_nil u))
  | featureUsage extraKeys =>
    exact ⟨⟨huid, hstore, hne⟩, rfl,
      keepsId_track u "Feature Used" (featureUsedKeys extraKeys) [] (keepsId_nil u)⟩
  | milestone m =>
    refine ⟨⟨huid, ?_, hne⟩, rfl, ?_⟩
    · exact (getStr_updateOnboardingProgress s.store m "veed_user_id" (by decide)).trans hstore
    · exact keepsId_track u "Onboarding Milestone Completed" milestonePropertiesKeys []
        (keepsId_nil u)

theorem runOps_cons (supply : ℕ → String) (s : AnalyticsState) (op : Op) (ops : List Op) :
    runOps supply s (op :: ops) =
      ((runOps supply (runOp supply s op).1 ops).1,
        (runOp supply s op).2 ++ (runOps supply (runOp supply s op).1 ops).2) := rfl

theorem runOps_keeps_identity (supply : ℕ → String) (u : String) (ops : List Op)
    (hops : ∀ op ∈ ops, op.isSignup = false ∧ op.isLogout = false)
    (s : AnalyticsState) (hInv : Inv s u) :
    Inv (runOps supply s ops).1 u ∧
    (runOps supply s ops).1.fresh = s.fresh ∧
    KeepsId u (runOps supply s ops).2 := by
  induction ops generalizing s with
  | nil => exact ⟨hInv, rfl, keepsId_nil u⟩
  | cons op ops ih =>
    have h1 := runOp_keeps_identity supply u op (hops op (List.mem_cons_self op ops)).1
      (hops op (List.mem_cons_self op ops)).2 s hInv
    have h2 := ih (fun o ho => hops o (List.mem_cons_of_mem op ho)) (runOp supply s op).1 h1.1
    rw [runOps_cons]
    exact ⟨h2.1, h2.2.1.trans h1.2.1, keepsId_append u _ _ h1.2.2 h2.2.2⟩

theorem attributions_keepsId (u : String) (tr : List TCall) (h : KeepsId u tr) :
    curAfter (some u) tr = some u ∧
    ∀ p ∈ attributions (some u) tr, p.2 = some u := by
  induction tr with
  | nil => exact ⟨rfl, by intro p hp; cases hp⟩
  | cons c tr ih =>
    have hc := h c (List.mem_cons_self c tr)
    have htr : KeepsId u tr := fun tc htc => h tc (List.mem_cons_of_mem c htc)
    have ihh := ih htr
    have hstep : stepIdentity (some u) c = some u := by
      cases c with
      | identify v => exact hc.2 v rfl
      | reset => exact absurd rfl hc.1
      | page n ks => rfl
      | track n ks => rfl
    constructor
    · show curAfter (stepIdentity (some u) c) tr = some u
      rw [hstep]
      exact ihh.1
    · intro p hp
      simp only [attributions] at hp
      rw [hstep] at hp
      rcases List.mem_append.mp hp with hp | hp
      · cases c <;> simp_all
      · exact ihh.2 p hp

/-- C2: after a signup generates and binds a userId, every subsequent login
in the same browsing context (with no intervening reset) passes exactly the
signup-generated userId to the transport's identify primitive, and none of
those logins generates a new userId (the random-id supply is consumed only
by the signup). -/
theorem signup_userId_immutable_across_logins (supply : ℕ → String)
    (userData : UserData) (s0 : AnalyticsState)
    (logins : List (String × Option String × String))
    (hsupply : ∀ n, (supply n).isEmpty = false) :
    (∀ tc ∈ (runOps supply (trackSignup supply userData s0).1
        (logins.map fun a => Op.login a.1 a.2.1 a.2.2)).2,
      ∀ v, tc = TCall.identify v → v = some (supply s0.fresh)) ∧
    (runOps supply (trackSignup supply userData s0).1
        (logins.map fun a => Op.login a.1 a.2.1 a.2.2)).1.fresh = s0.fresh + 1 := by
  have hest := trackSignup_establishes supply userData s0 (hsupply s0.fresh)
  have hops : ∀ op ∈ logins.map (fun a => Op.login a.1 a.2.1 a.2.2),
      op.isSignup = false ∧ op.isLogout = false := by
    intro op hop
    rcases List.mem_map.mp hop with ⟨a, _, rfl⟩
    exact ⟨rfl, rfl⟩
  have h := runOps_keeps_identity supply (supply s0.fresh) _ hops _ hest.1
  exact ⟨fun tc htc v hv => (h.2.2 tc htc).2 v hv, by rw [h.2.1, hest.2.1]⟩

/-- C2 witness: a concrete signup followed by one login with no reset; the
run consumes exactly the one id generated at signup. -/
theorem signup_userId_immutable_across_logins_witness :
    (runOps supplyABCDE (trackSignup supplyABCDE demoUser analyticsInit).1
        [Op.login "demo@example.com" none "t1"]).1.fresh =
      analyticsInit.fresh + 1 :=
  (signup_userId_immutable_across_logins supplyABCDE demoUser analyticsInit
    [("demo@example.com", none, "t1")] (fun _ => rfl)).2

/-- C3: once the signup's identify call binds the generated userId and until
a reset occurs, every track call emitted by the facade's operations is
attributed — by the transport rule that a track call is attributed to the
identity bound when it is processed — to exactly that userId. -/
theorem tracks_attributed_to_bound_userId (supply : ℕ → String)
    (userData : UserData) (s0 : AnalyticsState) (ops : List Op)
    (hsupply : ∀ n, (supply n).isEmpty = false)
    (hops : ∀ op ∈ ops, op.isSignup = false ∧ op.isLogout = false) :
    ∀ p ∈ attributions none
        ((trackSignup supply userData s0).2 ++
          (runOps supply (trackSignup supply userData s0).1 ops).2),
      p.2 = some (supply s0.fresh) := by
  intro p hp
  have hest := trackSignup_establishes supply userData s0 (hsupply s0.fresh)
  have hrun := runOps_keeps_identity supply (supply s0.fresh) ops hops _ hest.1
  rw [hest.2.2] at hp
  simp only [List.cons_append, List.nil_append, attributions, stepIdentity,
    List.mem_cons, List.mem_append] at hp
  rcases hp with rfl | hp
  · rfl
  · exact (attributions_keepsId (supply s0.fresh) _ hrun.2.2).2 p
      (by simpa using hp)

/-- C3 witness: in the concrete signup-only run, the `'Signed Up'` track
call is attributed to the signup-generated userId. -/
theorem tracks_attributed_to_bound_userId_witness :
    (("Signed Up", some "ABCDE") : String × Option String).2 = some "ABCDE" :=
  tracks_attributed_to_bound_userId supplyABCDE demoUser analyticsInit []
    (fun _ => rfl) (by intro op hop; cases hop)
    ("Signed Up", some "ABCDE") (by decide)

end Veed
